import Mathlib

/-!
Verification of the RPC dispatch layer of `src/rabbitmq/rpc_server.py`
(class `RPCServer`).

The dispatcher method `serve(self, ch, method, props, body)` is embedded as a
pure Lean function from the inbound envelope data to the list of transport
events it performs (publishes and acknowledgements, plus an `invoke` marker
recording that a handler body was entered) together with the Python exception
it raises, if any.

Modelled from the spec: `decode_json` and `encode_json` live in
`rabbitmq/protocol.py`, which is not part of the sources under verification;
the spec treats them as external primitives that decode the wire body into
structured data (decoding may fail, and a failure propagates) and serialize a
value for publishing. Accordingly `serve` here receives the decode result
directly (`none` models a payload on which `decode_json` raises), and a
publish event carries the structured value handed to `encode_json` rather
than its byte serialization, which is faithful because serialization of
distinct structured values is injective.
-/

namespace RPC

/-- Structured data as produced by decoding a JSON wire body. -/
inductive Json where
  | null
  | bool (b : Bool)
  | num (n : Int)
  | str (s : String)
  | arr (elems : List Json)
  | obj (fields : List (String × Json))

/-- An association list of string keys to values: a decoded Python dict. -/
abbrev Obj := List (String × Json)

/-- Python exceptions that `serve` can raise (it installs no handler, so any
of these propagates out of the dispatcher). -/
inductive PyError where
  /-- `decode_json` raised on an undecodable payload. -/
  | decodeError
  /-- A `TypeError`: non-dict membership test or indexing, `getattr` with a
  non-string name, `inspect.signature` of a non-callable, or a keyword-binding
  failure when calling the handler. -/
  | typeError
  /-- A `KeyError` from indexing a dict with an absent key. -/
  | keyError
  /-- Placeholder raised by the model of an infrastructure method
  (`setup`, `serve`, `start_serving`) whose body talks to the transport;
  dispatch never actually invokes these because they do not declare a
  `reply_fun` parameter. -/
  | externalEffect
deriving DecidableEq, Repr

/-- Observable transport actions performed while serving one envelope. -/
inductive Event where
  /-- `ch.basic_publish(exchange=..., routing_key=..., properties=pika.BasicProperties(correlation_id=...), body=encode_json(msg))`. -/
  | publish (exchange : String) (routingKey : String) (correlationId : Option String) (body : Json)
  /-- Marker: control enters the body of the resolved handler (the call
  `method_op(**args, reply_fun=reply)` bound successfully). -/
  | invoke (methodName : String)
  /-- `ch.basic_ack(delivery_tag=...)`. -/
  | ack (deliveryTag : Nat)

/-- The envelope metadata `serve` reads from `props`. -/
structure Props where
  reply_to : Option String
  correlation_id : Option String

/-- A callable attribute of the server instance, as the dispatcher sees it:
its `repr` text (used in one error message), its parameter names in
declaration order excluding `self` (what `inspect.signature` reports for the
bound method), and its behaviour once entered: the sequence of values it
passes to `reply_fun`, and the exception it then raises, if any. -/
structure PyCallable where
  reprStr : String
  params : List String
  run : Obj → List Json × Option PyError

/-- An attribute of the server instance: either callable or not (on a
non-callable, `inspect.signature` raises `TypeError`). -/
inductive PyAttr where
  | callable (c : PyCallable)
  | nonCallable

/-- Whether `needle` is a prefix of `hay` (on character lists). -/
def isPrefixOfL : List Char → List Char → Bool
  | [], _ => true
  | _ :: _, [] => false
  | a :: as, b :: bs => a == b && isPrefixOfL as bs

/-- Whether `needle` occurs as a contiguous substring of `hay`. -/
def containsSub (needle : List Char) : List Char → Bool
  | [] => needle.isEmpty
  | c :: t => isPrefixOfL needle (c :: t) || containsSub needle t

/-- Python `needle in hay` for strings: substring containment. -/
def strContains (hay needle : String) : Bool :=
  containsSub needle.toList hay.toList

/-- Python `key in j`: key membership for dicts, substring test for strings,
element equality for lists, `TypeError` otherwise. -/
def pyContains (j : Json) (key : String) : Except PyError Bool :=
  match j with
  | .obj fields => .ok (fields.lookup key).isSome
  | .str s => .ok (strContains s key)
  | .arr elems => .ok (elems.any fun e =>
      match e with
      | .str s => s == key
      | _ => false)
  | _ => .error .typeError

/-- Python `j[key]` for a string key: dict lookup (`KeyError` when absent),
`TypeError` on any non-dict. -/
def pyIndex (j : Json) (key : String) : Except PyError Json :=
  match j with
  | .obj fields =>
    match fields.lookup key with
    | some v => .ok v
    | none => .error .keyError
  | _ => .error .typeError

/-- The structured error value `(dict with single key "error")` used for every
validation failure reply. -/
def errObj (msg : String) : Json :=
  .obj [("error", .str msg)]

/-- The events of one call of the closure `reply(msg)` defined inside `serve`:
publish the serialized message to the reply routing key on the default
exchange, tagged with the request correlation id, then acknowledge the
delivery. -/
def replyEvents (routingKey : String) (correlationId : Option String)
    (deliveryTag : Nat) (msg : Json) : List Event :=
  [.publish "" routingKey correlationId msg, .ack deliveryTag]

/-- `getattr(self, name, None)`: look the name up among the instance
attributes; `none` models the default `None`. -/
def lookupAttr (attrs : List (String × PyAttr)) (name : String) : Option PyAttr :=
  attrs.lookup name

/-- The loop `for arg_name in signature.parameters: ...`: the first declared
parameter other than `reply_fun` that is not present in `args`, or `none`
when every one is present; propagates the `TypeError` a membership test on a
non-container `args` raises. -/
def firstMissingArg : List String → Json → Except PyError (Option String)
  | [], _ => .ok none
  | p :: ps, args =>
    if p = "reply_fun" then firstMissingArg ps args
    else
      match pyContains args p with
      | .error e => .error e
      | .ok true => firstMissingArg ps args
      | .ok false => .ok (some p)

/-- The call `method_op(**args, reply_fun=reply)`. Keyword binding raises
`TypeError` when `args` is not a dict, when it holds a key the callable does
not declare, when it holds the key `reply_fun` (already passed explicitly),
or when a declared parameter other than `reply_fun` is unbound. Otherwise the
handler body runs: each value it passes to `reply_fun` emits a publish
followed by an acknowledgement. -/
def invokeCallable (routingKey : String) (correlationId : Option String)
    (deliveryTag : Nat) (methodName : String) (c : PyCallable) (args : Json) :
    List Event × Option PyError :=
  match args with
  | .obj fields =>
    if fields.any (fun kv => !(c.params.contains kv.1))
        || fields.any (fun kv => kv.1 == "reply_fun")
        || c.params.any (fun p => p != "reply_fun" && !(fields.lookup p).isSome) then
      ([], some .typeError)
    else
      let r := c.run fields
      (.invoke methodName ::
        (r.1.map (replyEvents routingKey correlationId deliveryTag)).flatten, r.2)
  | _ => ([], some .typeError)

/-- The dispatcher `RPCServer.serve(self, ch, method, props, body)`, embedded
over the attribute table of the server instance. `decoded` is the result of
`decode_json(body)` (`none`: decoding raised). Returns the list of transport
events performed, in order, and the exception propagated out of `serve`, if
any. -/
def serve (attrs : List (String × PyAttr)) (props : Props) (deliveryTag : Nat)
    (decoded : Option Json) : List Event × Option PyError :=
  match decoded with
  | none => ([], some .decodeError)
  | some body =>
    match props.reply_to with
    | none => ([.ack deliveryTag], none)
    | some routingKeyReply =>
      let requestId := props.correlation_id
      let rep := replyEvents routingKeyReply requestId deliveryTag
      match pyContains body "method" with
      | .error e => ([], some e)
      | .ok false => (rep (errObj "Attribute method must be specified."), none)
      | .ok true =>
        match pyIndex body "method" with
        | .error e => ([], some e)
        | .ok serverMethod =>
          match serverMethod with
          | .str name =>
            match lookupAttr attrs name with
            | none =>
              (rep (errObj ("Method specified does not exist: " ++ name ++ ".")), none)
            | some attr =>
              match pyContains body "args" with
              | .error e => ([], some e)
              | .ok false =>
                (rep (errObj "Message received does not have arguments in attribute args."), none)
              | .ok true =>
                match pyIndex body "args" with
                | .error e => ([], some e)
                | .ok args =>
                  match attr with
                  | .nonCallable => ([], some .typeError)
                  | .callable c =>
                    if c.params.contains "reply_fun" = false then
                      (rep (errObj ("Method " ++ c.reprStr ++
                        " must declare a parameter \x27reply_fun\x27 that must be invoked to reply to an invokation.")), none)
                    else
                      match firstMissingArg c.params args with
                      | .error e => ([], some e)
                      | .ok (some argName) =>
                        (rep (errObj ("Message received does not specify argument " ++
                          argName ++ " in attribute args.")), none)
                      | .ok none =>
                        invokeCallable routingKeyReply requestId deliveryTag name c args
          | _ => ([], some .typeError)

/-- Behaviour of the example handler `echo(self, msg, reply_fun)`: it calls
`reply_fun(msg)` once and returns. The `none` branch mirrors the fact that the
body can only run with `msg` bound. -/
def echoRun (boundArgs : Obj) : List Json × Option PyError :=
  match boundArgs.lookup "msg" with
  | some m => ([m], none)
  | none => ([], some .typeError)

/-- The attribute table of an `RPCServer` instance as defined in
`src/rabbitmq/rpc_server.py`: the methods `__init__`, `setup`,
`start_serving`, `serve`, `echo` (with their parameter names in declaration
order, excluding `self`; defaulted parameters such as `ssl` are listed like
the rest, since the argument-presence loop of `serve` does not consult
defaults) and the non-callable logger attribute `_l` set in `__init__`. The
repr strings elide the memory address a live repr would carry. Attributes
inherited from the `Rabbitmq` superclass or from `object` live outside the
verified sources and are not listed. -/
def RPCServerAttrs : List (String × PyAttr) :=
  [ ("__init__", .callable ⟨"<bound method RPCServer.__init__>",
      ["ip", "port", "username", "password", "vhost", "exchange", "type", "ssl"],
      fun _ => ([], some .externalEffect)⟩),
    ("setup", .callable ⟨"<bound method RPCServer.setup>",
      ["routing_key", "queue_name"], fun _ => ([], some .externalEffect)⟩),
    ("start_serving", .callable ⟨"<bound method RPCServer.start_serving>",
      [], fun _ => ([], some .externalEffect)⟩),
    ("serve", .callable ⟨"<bound method RPCServer.serve>",
      ["ch", "method", "props", "body"], fun _ => ([], some .externalEffect)⟩),
    ("echo", .callable ⟨"<bound method RPCServer.echo>",
      ["msg", "reply_fun"], echoRun⟩),
    ("_l", .nonCallable) ]

/-- Is the event a publish? -/
def isPubE : Event → Bool
  | .publish _ _ _ _ => true
  | _ => false

/-- Is the event an acknowledgement? -/
def isAckE : Event → Bool
  | .ack _ => true
  | _ => false

/-- Is the event a handler-invocation marker? -/
def isInvE : Event → Bool
  | .invoke _ => true
  | _ => false

/-- Number of publishes in a trace. -/
def countPub (tr : List Event) : Nat := (tr.filter isPubE).length

/-- Number of acknowledgements in a trace. -/
def countAck (tr : List Event) : Nat := (tr.filter isAckE).length

/-- Number of handler invocations in a trace. -/
def countInv (tr : List Event) : Nat := (tr.filter isInvE).length

/-- All validation checks of the dispatch pipeline, written out after the
words of the spec (steps 4 to 7 plus the interposed `reply_fun` check):
the decoded body holds a `method` key naming a callable attribute, holds an
`args` key, the callable declares `reply_fun`, and every other declared
parameter is present in `args`. -/
def allChecksPass (attrs : List (String × PyAttr)) (body : Json) : Bool :=
  match pyContains body "method" with
  | .error _ => false
  | .ok false => false
  | .ok true =>
    match pyIndex body "method" with
    | .error _ => false
    | .ok (.str name) =>
      match lookupAttr attrs name with
      | none => false
      | some .nonCallable => false
      | some (.callable c) =>
        match pyContains body "args" with
        | .error _ => false
        | .ok false => false
        | .ok true =>
          match pyIndex body "args" with
          | .error _ => false
          | .ok args =>
            c.params.contains "reply_fun" &&
              (match firstMissingArg c.params args with
               | .ok none => true
               | _ => false)
    | .ok _ => false

/-! ### Path-characterization lemmas for `serve`

Each lemma pins down the full event trace and outcome of `serve` on one
branch of the validation pipeline, for an arbitrary attribute table. -/

theorem serve_obj_missing_method (attrs : List (String × PyAttr)) (rk : String)
    (corr : Option String) (tag : Nat) (fields : Obj)
    (h : fields.lookup "method" = none) :
    serve attrs ⟨some rk, corr⟩ tag (some (.obj fields)) =
      (replyEvents rk corr tag (errObj "Attribute method must be specified."), none) := by
  simp [serve, pyContains, h]

theorem serve_obj_unknown_method (attrs : List (String × PyAttr)) (rk : String)
    (corr : Option String) (tag : Nat) (fields : Obj) (name : String)
    (h1 : fields.lookup "method" = some (.str name))
    (h2 : lookupAttr attrs name = none) :
    serve attrs ⟨some rk, corr⟩ tag (some (.obj fields)) =
      (replyEvents rk corr tag
        (errObj ("Method specified does not exist: " ++ name ++ ".")), none) := by
  simp [serve, pyContains, pyIndex, h1, h2]

theorem serve_obj_missing_args (attrs : List (String × PyAttr)) (rk : String)
    (corr : Option String) (tag : Nat) (fields : Obj) (name : String)
    (attr : PyAttr)
    (h1 : fields.lookup "method" = some (.str name))
    (h2 : lookupAttr attrs name = some attr)
    (h3 : fields.lookup "args" = none) :
    serve attrs ⟨some rk, corr⟩ tag (some (.obj fields)) =
      (replyEvents rk corr tag
        (errObj "Message received does not have arguments in attribute args."), none) := by
  simp [serve, pyContains, pyIndex, h1, h2, h3]

theorem serve_obj_missing_replyfun (attrs : List (String × PyAttr)) (rk : String)
    (corr : Option String) (tag : Nat) (fields : Obj) (name : String)
    (c : PyCallable) (args : Json)
    (h1 : fields.lookup "method" = some (.str name))
    (h2 : lookupAttr attrs name = some (.callable c))
    (h3 : fields.lookup "args" = some args)
    (h4 : "reply_fun" ∉ c.params) :
    serve attrs ⟨some rk, corr⟩ tag (some (.obj fields)) =
      (replyEvents rk corr tag
        (errObj ("Method " ++ c.reprStr ++
          " must declare a parameter \x27reply_fun\x27 that must be invoked to reply to an invokation.")), none) := by
  simp [serve, pyContains, pyIndex, h1, h2, h3, h4]

theorem serve_obj_missing_param (attrs : List (String × PyAttr)) (rk : String)
    (corr : Option String) (tag : Nat) (fields : Obj) (name : String)
    (c : PyCallable) (args : Json) (argName : String)
    (h1 : fields.lookup "method" = some (.str name))
    (h2 : lookupAttr attrs name = some (.callable c))
    (h3 : fields.lookup "args" = some args)
    (h4 : "reply_fun" ∈ c.params)
    (h5 : firstMissingArg c.params args = .ok (some argName)) :
    serve attrs ⟨some rk, corr⟩ tag (some (.obj fields)) =
      (replyEvents rk corr tag
        (errObj ("Message received does not specify argument " ++ argName ++
          " in attribute args.")), none) := by
  simp [serve, pyContains, pyIndex, h1, h2, h3, h4, h5]

theorem countAck_append (a b : List Event) : countAck (a ++ b) = countAck a + countAck b := by
  simp [countAck, List.filter_append]

theorem countPub_append (a b : List Event) : countPub (a ++ b) = countPub a + countPub b := by
  simp [countPub, List.filter_append]

theorem countInv_append (a b : List Event) : countInv (a ++ b) = countInv a + countInv b := by
  simp [countInv, List.filter_append]

theorem countAck_flatten_reply (rk : String) (corr : Option String) (tag : Nat)
    (msgs : List Json) :
    countAck ((msgs.map (replyEvents rk corr tag)).flatten) = msgs.length := by
  induction msgs with
  | nil => rfl
  | cons m rest ih =>
    simp only [List.map_cons, List.flatten_cons, countAck_append, ih]
    simp [countAck, replyEvents, isAckE, Nat.add_comm]

theorem countPub_flatten_reply (rk : String) (corr : Option String) (tag : Nat)
    (msgs : List Json) :
    countPub ((msgs.map (replyEvents rk corr tag)).flatten) = msgs.length := by
  induction msgs with
  | nil => rfl
  | cons m rest ih =>
    simp only [List.map_cons, List.flatten_cons, countPub_append, ih]
    simp [countPub, replyEvents, isPubE, Nat.add_comm]

theorem countInv_flatten_reply (rk : String) (corr : Option String) (tag : Nat)
    (msgs : List Json) :
    countInv ((msgs.map (replyEvents rk corr tag)).flatten) = 0 := by
  induction msgs with
  | nil => rfl
  | cons m rest ih =>
    simp only [List.map_cons, List.flatten_cons, countInv_append, ih]
    simp [countInv, replyEvents, isInvE]

/-- In the events of a sequence of `reply` invocations, every publish is
immediately followed by the acknowledgement of the same delivery tag. -/
theorem flatten_reply_pub_then_ack (rk : String) (corr : Option String) (tag : Nat)
    (msgs : List Json) (j : Nat) (ex rk2 : String) (c2 : Option String) (b : Json)
    (h : ((msgs.map (replyEvents rk corr tag)).flatten)[j]? = some (.publish ex rk2 c2 b)) :
    ((msgs.map (replyEvents rk corr tag)).flatten)[j + 1]? = some (.ack tag) := by
  induction msgs generalizing j with
  | nil => simp at h
  | cons m rest ih =>
    match j with
    | 0 => simp [replyEvents]
    | 1 => simp [replyEvents] at h
    | Nat.succ (Nat.succ j) =>
      simp only [List.map_cons, List.flatten_cons, replyEvents, List.cons_append,
        List.nil_append, List.getElem?_cons_succ] at h ⊢
      exact ih j h

theorem serve_obj_reaches_call (attrs : List (String × PyAttr)) (rk : String)
    (corr : Option String) (tag : Nat) (fields : Obj) (name : String)
    (c : PyCallable) (args : Json)
    (h1 : fields.lookup "method" = some (.str name))
    (h2 : lookupAttr attrs name = some (.callable c))
    (h3 : fields.lookup "args" = some args)
    (h4 : "reply_fun" ∈ c.params)
    (h5 : firstMissingArg c.params args = .ok none) :
    serve attrs ⟨some rk, corr⟩ tag (some (.obj fields)) =
      invokeCallable rk corr tag name c args := by
  simp [serve, pyContains, pyIndex, h1, h2, h3, h4, h5]

/-- Exhaustive classification of the result of `serve`: either it raised with
an empty trace; or it took the missing-reply-address shortcut (one bare
acknowledgement); or it replied (one publish then one acknowledgement, no
exception); or it invoked a handler whose every validation and binding check
passed, and the trace is the invocation marker followed by the events of the
handler replies. -/
theorem serve_shape (attrs : List (String × PyAttr)) (props : Props) (tag : Nat)
    (decoded : Option Json) :
    ((serve attrs props tag decoded).1 = [] ∧
      ∃ e, (serve attrs props tag decoded).2 = some e) ∨
    ((serve attrs props tag decoded).1 = [.ack tag] ∧
      (serve attrs props tag decoded).2 = none ∧ props.reply_to = none) ∨
    (∃ rk msg, props.reply_to = some rk ∧
      (serve attrs props tag decoded).1 = replyEvents rk props.correlation_id tag msg ∧
      (serve attrs props tag decoded).2 = none) ∨
    (∃ rk body name c fields, props.reply_to = some rk ∧
      decoded = some body ∧ allChecksPass attrs body = true ∧
      lookupAttr attrs name = some (.callable c) ∧
      fields.any (fun kv => !(c.params.contains kv.1)) = false ∧
      fields.any (fun kv => kv.1 == "reply_fun") = false ∧
      c.params.any (fun p => p != "reply_fun" && !(fields.lookup p).isSome) = false ∧
      (serve attrs props tag decoded).1 = .invoke name ::
        ((c.run fields).1.map (replyEvents rk props.correlation_id tag)).flatten ∧
      (serve attrs props tag decoded).2 = (c.run fields).2) := by
  obtain ⟨rt, corr⟩ := props
  cases decoded with
  | none =>
    exact Or.inl ⟨by simp [serve], .decodeError, by simp [serve]⟩
  | some body =>
    cases rt with
    | none =>
      exact Or.inr (Or.inl ⟨by simp [serve], by simp [serve], rfl⟩)
    | some rk =>
      cases hm : pyContains body "method" with
      | error e =>
        exact Or.inl ⟨by simp [serve, hm], e, by simp [serve, hm]⟩
      | ok bm =>
        cases bm with
        | false =>
          exact Or.inr (Or.inr (Or.inl ⟨rk, errObj "Attribute method must be specified.",
            rfl, by simp [serve, hm], by simp [serve, hm]⟩))
        | true =>
          cases hi : pyIndex body "method" with
          | error e =>
            exact Or.inl ⟨by simp [serve, hm, hi], e, by simp [serve, hm, hi]⟩
          | ok sm =>
            cases sm with
            | str name =>
              cases hl : lookupAttr attrs name with
              | none =>
                exact Or.inr (Or.inr (Or.inl
                  ⟨rk, errObj ("Method specified does not exist: " ++ name ++ "."),
                    rfl, by simp [serve, hm, hi, hl], by simp [serve, hm, hi, hl]⟩))
              | some attr =>
                cases ha : pyContains body "args" with
                | error e =>
                  exact Or.inl
                    ⟨by simp [serve, hm, hi, hl, ha], e, by simp [serve, hm, hi, hl, ha]⟩
                | ok ba =>
                  cases ba with
                  | false =>
                    exact Or.inr (Or.inr (Or.inl
                      ⟨rk, errObj "Message received does not have arguments in attribute args.",
                        rfl, by simp [serve, hm, hi, hl, ha], by simp [serve, hm, hi, hl, ha]⟩))
                  | true =>
                    cases hia : pyIndex body "args" with
                    | error e =>
                      exact Or.inl ⟨by simp [serve, hm, hi, hl, ha, hia], e,
                        by simp [serve, hm, hi, hl, ha, hia]⟩
                    | ok args =>
                      cases attr with
                      | nonCallable =>
                        exact Or.inl ⟨by simp [serve, hm, hi, hl, ha, hia], .typeError,
                          by simp [serve, hm, hi, hl, ha, hia]⟩
                      | callable c =>
                        by_cases hrf : "reply_fun" ∈ c.params
                        · cases hfm : firstMissingArg c.params args with
                          | error e =>
                            exact Or.inl ⟨by simp [serve, hm, hi, hl, ha, hia, hrf, hfm], e,
                              by simp [serve, hm, hi, hl, ha, hia, hrf, hfm]⟩
                          | ok miss =>
                            cases miss with
                            | some p =>
                              exact Or.inr (Or.inr (Or.inl
                                ⟨rk, errObj ("Message received does not specify argument " ++ p ++
                                    " in attribute args."), rfl,
                                  by simp [serve, hm, hi, hl, ha, hia, hrf, hfm],
                                  by simp [serve, hm, hi, hl, ha, hia, hrf, hfm]⟩))
                            | none =>
                              have hcall : serve attrs ⟨some rk, corr⟩ tag (some body) =
                                  invokeCallable rk corr tag name c args := by
                                simp [serve, hm, hi, hl, ha, hia, hrf, hfm]
                              rw [hcall]
                              cases args with
                              | obj fields =>
                                by_cases hg : (fields.any (fun kv => !(c.params.contains kv.1))
                                    || fields.any (fun kv => kv.1 == "reply_fun")
                                    || c.params.any
                                        (fun p => p != "reply_fun" && !(fields.lookup p).isSome)) = true
                                · exact Or.inl ⟨by simp only [invokeCallable]; rw [if_pos hg],
                                    .typeError, by simp only [invokeCallable]; rw [if_pos hg]⟩
                                · have hg3 : fields.any (fun kv => !(c.params.contains kv.1)) = false ∧
                                      fields.any (fun kv => kv.1 == "reply_fun") = false ∧
                                      c.params.any
                                        (fun p => p != "reply_fun" && !(fields.lookup p).isSome) = false := by
                                    have hg2 := Bool.eq_false_iff.mpr hg
                                    simp only [Bool.or_eq_false_iff] at hg2
                                    exact ⟨hg2.1.1, hg2.1.2, hg2.2⟩
                                  have hchecks : allChecksPass attrs body = true := by
                                    simp [allChecksPass, hm, hi, hl, ha, hia, hrf, hfm]
                                  refine Or.inr (Or.inr (Or.inr
                                    ⟨rk, body, name, c, fields, rfl, rfl, hchecks, hl,
                                      hg3.1, hg3.2.1, hg3.2.2, ?_, ?_⟩))
                                  · simp only [invokeCallable]; rw [if_neg hg]
                                  · simp only [invokeCallable]; rw [if_neg hg]
                              | null =>
                                exact Or.inl ⟨by simp [invokeCallable], .typeError,
                                  by simp [invokeCallable]⟩
                              | bool b =>
                                exact Or.inl ⟨by simp [invokeCallable], .typeError,
                                  by simp [invokeCallable]⟩
                              | num n =>
                                exact Or.inl ⟨by simp [invokeCallable], .typeError,
                                  by simp [invokeCallable]⟩
                              | str s =>
                                exact Or.inl ⟨by simp [invokeCallable], .typeError,
                                  by simp [invokeCallable]⟩
                              | arr elems =>
                                exact Or.inl ⟨by simp [invokeCallable], .typeError,
                                  by simp [invokeCallable]⟩
                        · exact Or.inr (Or.inr (Or.inl
                            ⟨rk, errObj ("Method " ++ c.reprStr ++
                                " must declare a parameter \x27reply_fun\x27 that must be invoked to reply to an invokation."),
                              rfl,
                              by simp [serve, hm, hi, hl, ha, hia, hrf],
                              by simp [serve, hm, hi, hl, ha, hia, hrf]⟩))
            | null =>
              exact Or.inl ⟨by simp [serve, hm, hi], .typeError, by simp [serve, hm, hi]⟩
            | bool b =>
              exact Or.inl ⟨by simp [serve, hm, hi], .typeError, by simp [serve, hm, hi]⟩
            | num n =>
              exact Or.inl ⟨by simp [serve, hm, hi], .typeError, by simp [serve, hm, hi]⟩
            | arr elems =>
              exact Or.inl ⟨by simp [serve, hm, hi], .typeError, by simp [serve, hm, hi]⟩
            | obj fields2 =>
              exact Or.inl ⟨by simp [serve, hm, hi], .typeError, by simp [serve, hm, hi]⟩

/-- Any successful attribute lookup on the concrete server yields one of the
six attributes of the class. -/
theorem RPCServerAttrs_cases (name : String) (attr : PyAttr)
    (h : lookupAttr RPCServerAttrs name = some attr) :
    (name = "__init__" ∧ attr = .callable ⟨"<bound method RPCServer.__init__>",
        ["ip", "port", "username", "password", "vhost", "exchange", "type", "ssl"],
        fun _ => ([], some .externalEffect)⟩) ∨
    (name = "setup" ∧ attr = .callable ⟨"<bound method RPCServer.setup>",
        ["routing_key", "queue_name"], fun _ => ([], some .externalEffect)⟩) ∨
    (name = "start_serving" ∧ attr = .callable ⟨"<bound method RPCServer.start_serving>",
        [], fun _ => ([], some .externalEffect)⟩) ∨
    (name = "serve" ∧ attr = .callable ⟨"<bound method RPCServer.serve>",
        ["ch", "method", "props", "body"], fun _ => ([], some .externalEffect)⟩) ∨
    (name = "echo" ∧ attr = .callable ⟨"<bound method RPCServer.echo>",
        ["msg", "reply_fun"], echoRun⟩) ∨
    (name = "_l" ∧ attr = .nonCallable) := by
  simp only [lookupAttr, RPCServerAttrs, List.lookup] at h
  split at h
  · simp_all
  · split at h
    · simp_all
    · split at h
      · simp_all
      · split at h
        · simp_all
        · split at h
          · simp_all
          · split at h
            · simp_all
            · simp_all

/-- C3: for the registered handler `echo` (declaring parameter `msg`),
processing the request with method `echo` and args binding `msg` to the
string `"hi"`, on an envelope with reply address `R`, correlation id `C` and
delivery tag `t`, performs exactly one publish, to `R` with correlation id
`C` and body `"hi"` (the serialized string), and exactly one acknowledge,
and the acknowledge (trace index 2) occurs after the publish (trace index
1); `serve` raises nothing. -/
theorem echo_request_events (R C : String) (t : Nat) :
    serve RPCServerAttrs ⟨some R, some C⟩ t
      (some (.obj [("method", .str "echo"), ("args", .obj [("msg", .str "hi")])])) =
      ([.invoke "echo", .publish "" R (some C) (.str "hi"), .ack t], none) ∧
    countPub [.invoke "echo", .publish "" R (some C) (.str "hi"), .ack t] = 1 ∧
    countAck [.invoke "echo", .publish "" R (some C) (.str "hi"), .ack t] = 1 ∧
    [Event.invoke "echo", .publish "" R (some C) (.str "hi"), .ack t].findIdx? isPubE = some 1 ∧
    [Event.invoke "echo", .publish "" R (some C) (.str "hi"), .ack t].findIdx? isAckE = some 2 :=
  ⟨rfl, rfl, rfl, rfl, rfl⟩

/-- C5: every invocation of the reply capability first publishes the
serialized response to the bound reply address tagged with the bound
correlation id and only then acknowledges the bound delivery tag. First
part: within one invocation the publish sits at index 0 and the
acknowledgement at index 1. Second part: in the whole trace of `serve` —
for any attribute table, handler behaviour, envelope and payload — a publish
at position `i` is immediately followed at `i + 1` by the acknowledgement of
the served delivery, so no acknowledgement produced by the reply capability
ever precedes its publish. -/
theorem reply_publishes_then_acks :
    (∀ (rk : String) (corr : Option String) (tag : Nat) (msg : Json),
      (replyEvents rk corr tag msg)[0]? = some (.publish "" rk corr msg) ∧
      (replyEvents rk corr tag msg)[1]? = some (.ack tag)) ∧
    (∀ (attrs : List (String × PyAttr)) (props : Props) (tag : Nat)
        (decoded : Option Json) (i : Nat) (ex rk2 : String) (c2 : Option String) (b : Json),
      (serve attrs props tag decoded).1[i]? = some (.publish ex rk2 c2 b) →
      (serve attrs props tag decoded).1[i + 1]? = some (.ack tag)) := by
  constructor
  · intro rk corr tag msg
    exact ⟨rfl, rfl⟩
  · intro attrs props tag decoded i ex rk2 c2 b h
    rcases serve_shape attrs props tag decoded with
      ⟨h1, _⟩ | ⟨h1, _, _⟩ | ⟨rk, msg, _, h1, _⟩ |
      ⟨rk, body, name, c, fields, _, _, _, _, _, _, _, h1, _⟩
    · rw [h1] at h
      simp at h
    · rw [h1] at h
      match i with
      | 0 => simp at h
      | Nat.succ j => simp at h
    · rw [h1] at h ⊢
      match i with
      | 0 => simp [replyEvents]
      | 1 => simp [replyEvents] at h
      | Nat.succ (Nat.succ j) => simp [replyEvents] at h
    · rw [h1] at h ⊢
      match i with
      | 0 => simp at h
      | Nat.succ j =>
        simp only [List.getElem?_cons_succ] at h ⊢
        exact flatten_reply_pub_then_ack _ _ _ _ j ex rk2 c2 b h

theorem serve_obj_firstMissing_raises (attrs : List (String × PyAttr)) (rk : String)
    (corr : Option String) (tag : Nat) (fields : Obj) (name : String)
    (c : PyCallable) (args : Json) (e : PyError)
    (h1 : fields.lookup "method" = some (.str name))
    (h2 : lookupAttr attrs name = some (.callable c))
    (h3 : fields.lookup "args" = some args)
    (h4 : "reply_fun" ∈ c.params)
    (h5 : firstMissingArg c.params args = .error e) :
    serve attrs ⟨some rk, corr⟩ tag (some (.obj fields)) = ([], some e) := by
  simp [serve, pyContains, pyIndex, h1, h2, h3, h4, h5]

theorem serve_obj_nonCallable (attrs : List (String × PyAttr)) (rk : String)
    (corr : Option String) (tag : Nat) (fields : Obj) (name : String) (args : Json)
    (h1 : fields.lookup "method" = some (.str name))
    (h2 : lookupAttr attrs name = some .nonCallable)
    (h3 : fields.lookup "args" = some args) :
    serve attrs ⟨some rk, corr⟩ tag (some (.obj fields)) = ([], some .typeError) := by
  simp [serve, pyContains, pyIndex, h1, h2, h3]

/-- C6 counterexample: at the request with body args only (no method key),
the single published error body carries the text
`Attribute method must be specified.` (the f-string interpolates the bare
attribute name), which differs from the text the claim states, which has
quotes around `method`. -/
theorem missing_method_error_text_counterexample :
    serve RPCServerAttrs ⟨some "R", some "C"⟩ 1 (some (.obj [("args", .obj [])])) =
      ([.publish "" "R" (some "C") (errObj "Attribute method must be specified."), .ack 1],
        none) ∧
    "Attribute method must be specified." ≠ "Attribute \x27method\x27 must be specified." :=
  ⟨rfl, by decide⟩

/-- C6 (amended): for every decoded request object lacking the key `method`,
on an envelope with a reply address, exactly one publish occurs, whose body
is the error object with message `Attribute method must be specified.`
(no quotes around the attribute name), tagged with the envelope correlation
id, and the delivery is acknowledged once via the reply capability,
immediately after the publish. -/
theorem missing_method_error_reply (attrs : List (String × PyAttr)) (rk : String)
    (corr : Option String) (tag : Nat) (fields : Obj)
    (h : fields.lookup "method" = none) :
    serve attrs ⟨some rk, corr⟩ tag (some (.obj fields)) =
      ([.publish "" rk corr (errObj "Attribute method must be specified."), .ack tag],
        none) :=
  serve_obj_missing_method attrs rk corr tag fields h

/-- Witness for `missing_method_error_reply` at a concrete request. -/
theorem missing_method_error_reply_witness :
    serve RPCServerAttrs ⟨some "Q", some "K"⟩ 3
      (some (.obj [("args", .obj []), ("x", .null)])) =
      ([.publish "" "Q" (some "K") (errObj "Attribute method must be specified."), .ack 3],
        none) :=
  missing_method_error_reply RPCServerAttrs "Q" (some "K") 3
    [("args", .obj []), ("x", .null)] rfl

/-- C7 counterexample: the handler `echo` declares the required parameter
`msg`; at the request with empty args the reply text is
`Message received does not specify argument msg in attribute args.`, which
differs from the claimed text, which has quotes around `args`. -/
theorem missing_arg_error_text_counterexample :
    serve RPCServerAttrs ⟨some "R", some "C"⟩ 1
      (some (.obj [("method", .str "echo"), ("args", .obj [])])) =
      ([.publish "" "R" (some "C")
          (errObj "Message received does not specify argument msg in attribute args."),
        .ack 1], none) ∧
    "Message received does not specify argument msg in attribute args." ≠
      "Message received does not specify argument msg in attribute \x27args\x27." :=
  ⟨rfl, by decide⟩

/-- C7 (amended): when the resolved handler declares a required parameter
absent from `args` (the first such parameter in declaration order being
`x`), the dispatcher replies with the error object whose message is
`Message received does not specify argument x in attribute args.` (no quotes
around `args`) and the handler is never invoked (the trace holds no
invocation marker, and the result does not depend on the handler body);
more generally - second conjunct - whenever a handler invocation appears in
a `serve` trace, every validation check passed on that request. -/
theorem missing_argument_blocks_invocation :
    (∀ (attrs : List (String × PyAttr)) (rk : String) (corr : Option String) (tag : Nat)
        (fields : Obj) (name : String) (c : PyCallable) (args : Json) (x : String),
      fields.lookup "method" = some (.str name) →
      lookupAttr attrs name = some (.callable c) →
      fields.lookup "args" = some args →
      "reply_fun" ∈ c.params →
      firstMissingArg c.params args = .ok (some x) →
      serve attrs ⟨some rk, corr⟩ tag (some (.obj fields)) =
        ([.publish "" rk corr
            (errObj ("Message received does not specify argument " ++ x ++
              " in attribute args.")), .ack tag], none) ∧
      countInv (serve attrs ⟨some rk, corr⟩ tag (some (.obj fields))).1 = 0) ∧
    (∀ (attrs : List (String × PyAttr)) (props : Props) (tag : Nat) (body : Json),
      1 ≤ countInv (serve attrs props tag (some body)).1 →
      allChecksPass attrs body = true) := by
  constructor
  · intro attrs rk corr tag fields name c args x h1 h2 h3 h4 h5
    have h := serve_obj_missing_param attrs rk corr tag fields name c args x h1 h2 h3 h4 h5
    exact ⟨h, by rw [h]; rfl⟩
  · intro attrs props tag body hinv
    rcases serve_shape attrs props tag (some body) with
      ⟨h1, _⟩ | ⟨h1, _, _⟩ | ⟨rk, msg, _, h1, _⟩ |
      ⟨rk, body2, name, c, fields, _, hdec, hchecks, _, _, _, _, h1, _⟩
    · rw [h1] at hinv
      simp [countInv] at hinv
    · rw [h1] at hinv
      simp [countInv, isInvE] at hinv
    · rw [h1] at hinv
      simp [countInv, replyEvents, isInvE] at hinv
    · injection hdec with hb
      rw [hb]
      exact hchecks

/-- Witness for `missing_argument_blocks_invocation` at a concrete request
to `echo` with empty args. -/
theorem missing_argument_blocks_invocation_witness :
    serve RPCServerAttrs ⟨some "W", some "K"⟩ 4
      (some (.obj [("method", .str "echo"), ("args", .obj [])])) =
      ([.publish "" "W" (some "K")
          (errObj ("Message received does not specify argument " ++ "msg" ++
            " in attribute args.")), .ack 4], none) :=
  (missing_argument_blocks_invocation.1 RPCServerAttrs "W" (some "K") 4
    [("method", .str "echo"), ("args", .obj [])] "echo"
    ⟨"<bound method RPCServer.echo>", ["msg", "reply_fun"], echoRun⟩ (.obj []) "msg"
    rfl rfl rfl (by decide) rfl).1

/-- C9: between the args-presence check and the per-argument presence checks
the dispatcher verifies that the resolved method declares a parameter
`reply_fun`; when it does not - whatever else `args` contains - it replies
with the error object whose message embeds the repr of the method, the
delivery is acknowledged via the reply capability, and the method is never
invoked. -/
theorem missing_replyfun_error (attrs : List (String × PyAttr)) (rk : String)
    (corr : Option String) (tag : Nat) (fields : Obj) (name : String)
    (c : PyCallable) (args : Json)
    (h1 : fields.lookup "method" = some (.str name))
    (h2 : lookupAttr attrs name = some (.callable c))
    (h3 : fields.lookup "args" = some args)
    (h4 : "reply_fun" ∉ c.params) :
    serve attrs ⟨some rk, corr⟩ tag (some (.obj fields)) =
      ([.publish "" rk corr
          (errObj ("Method " ++ c.reprStr ++
            " must declare a parameter \x27reply_fun\x27 that must be invoked to reply to an invokation.")),
        .ack tag], none) ∧
    countInv (serve attrs ⟨some rk, corr⟩ tag (some (.obj fields))).1 = 0 := by
  have h := serve_obj_missing_replyfun attrs rk corr tag fields name c args h1 h2 h3 h4
  exact ⟨h, by rw [h]; rfl⟩

/-- Witness for `missing_replyfun_error`: the infrastructure method `serve`
declares no `reply_fun` parameter, so dispatching to it replies with the
repr-bearing error. -/
theorem missing_replyfun_error_witness :
    serve RPCServerAttrs ⟨some "R", some "C"⟩ 6
      (some (.obj [("method", .str "serve"), ("args", .obj [])])) =
      ([.publish "" "R" (some "C")
          (errObj ("Method " ++ "<bound method RPCServer.serve>" ++
            " must declare a parameter \x27reply_fun\x27 that must be invoked to reply to an invokation.")),
        .ack 6], none) :=
  (missing_replyfun_error RPCServerAttrs "R" (some "C") 6
    [("method", .str "serve"), ("args", .obj [])] "serve"
    ⟨"<bound method RPCServer.serve>", ["ch", "method", "props", "body"],
      fun _ => ([], some .externalEffect)⟩
    (.obj []) rfl rfl rfl (by decide)).1

/-- C4: the validation checks (method present, method resolvable, args
present, each declared argument present) run in that fixed order and the
first failing check wins and short-circuits, whatever later checks would
also fail on the request. Part 1: a request lacking `method` gets the
missing-method error no matter what else is missing. Part 2: a request
naming an unresolvable method gets the unknown-method error regardless of
its args (present, absent or malformed). Part 3: a request whose method
resolves but that lacks `args` gets the missing-args error regardless of the
resolved attribute. Part 4: past those checks (and the `reply_fun` check,
which the code interposes next - see `missing_replyfun_error`), the first
declared parameter absent from `args`, in declaration order, determines the
single reported error. -/
theorem validation_order_first_failure_wins :
    (∀ (attrs : List (String × PyAttr)) (rk : String) (corr : Option String) (tag : Nat)
        (fields : Obj),
      fields.lookup "method" = none →
      serve attrs ⟨some rk, corr⟩ tag (some (.obj fields)) =
        ([.publish "" rk corr (errObj "Attribute method must be specified."), .ack tag],
          none)) ∧
    (∀ (attrs : List (String × PyAttr)) (rk : String) (corr : Option String) (tag : Nat)
        (fields : Obj) (name : String),
      fields.lookup "method" = some (.str name) →
      lookupAttr attrs name = none →
      serve attrs ⟨some rk, corr⟩ tag (some (.obj fields)) =
        ([.publish "" rk corr (errObj ("Method specified does not exist: " ++ name ++ ".")),
          .ack tag], none)) ∧
    (∀ (attrs : List (String × PyAttr)) (rk : String) (corr : Option String) (tag : Nat)
        (fields : Obj) (name : String) (attr : PyAttr),
      fields.lookup "method" = some (.str name) →
      lookupAttr attrs name = some attr →
      fields.lookup "args" = none →
      serve attrs ⟨some rk, corr⟩ tag (some (.obj fields)) =
        ([.publish "" rk corr
            (errObj "Message received does not have arguments in attribute args."),
          .ack tag], none)) ∧
    (∀ (attrs : List (String × PyAttr)) (rk : String) (corr : Option String) (tag : Nat)
        (fields : Obj) (name : String) (c : PyCallable) (args : Json) (x : String),
      fields.lookup "method" = some (.str name) →
      lookupAttr attrs name = some (.callable c) →
      fields.lookup "args" = some args →
      "reply_fun" ∈ c.params →
      firstMissingArg c.params args = .ok (some x) →
      serve attrs ⟨some rk, corr⟩ tag (some (.obj fields)) =
        ([.publish "" rk corr
            (errObj ("Message received does not specify argument " ++ x ++
              " in attribute args.")), .ack tag], none)) :=
  ⟨fun attrs rk corr tag fields h => serve_obj_missing_method attrs rk corr tag fields h,
   fun attrs rk corr tag fields name h1 h2 =>
     serve_obj_unknown_method attrs rk corr tag fields name h1 h2,
   fun attrs rk corr tag fields name attr h1 h2 h3 =>
     serve_obj_missing_args attrs rk corr tag fields name attr h1 h2 h3,
   fun attrs rk corr tag fields name c args x h1 h2 h3 h4 h5 =>
     serve_obj_missing_param attrs rk corr tag fields name c args x h1 h2 h3 h4 h5⟩

/-- Witness for `validation_order_first_failure_wins`, realizing the two
examples of the claim: a request missing both `method` and `args` reports
only the missing-method error, and a request with both an unknown method and
missing `args` reports only the unknown-method error; plus concrete inputs
for the two remaining parts. -/
theorem validation_order_first_failure_wins_witness :
    serve RPCServerAttrs ⟨some "R", some "C"⟩ 21 (some (.obj [])) =
      ([.publish "" "R" (some "C") (errObj "Attribute method must be specified."), .ack 21],
        none) ∧
    serve RPCServerAttrs ⟨some "R", some "C"⟩ 22 (some (.obj [("method", .str "foo")])) =
      ([.publish "" "R" (some "C") (errObj ("Method specified does not exist: " ++ "foo" ++ ".")),
        .ack 22], none) ∧
    serve RPCServerAttrs ⟨some "R", some "C"⟩ 23 (some (.obj [("method", .str "echo")])) =
      ([.publish "" "R" (some "C")
          (errObj "Message received does not have arguments in attribute args."), .ack 23],
        none) ∧
    serve RPCServerAttrs ⟨some "R", some "C"⟩ 24
      (some (.obj [("method", .str "echo"), ("args", .str "nothing")])) =
      ([.publish "" "R" (some "C")
          (errObj ("Message received does not specify argument " ++ "msg" ++
            " in attribute args.")), .ack 24], none) :=
  ⟨validation_order_first_failure_wins.1 RPCServerAttrs "R" (some "C") 21 [] rfl,
   validation_order_first_failure_wins.2.1 RPCServerAttrs "R" (some "C") 22
     [("method", .str "foo")] "foo" rfl rfl,
   validation_order_first_failure_wins.2.2.1 RPCServerAttrs "R" (some "C") 23
     [("method", .str "echo")] "echo"
     (.callable ⟨"<bound method RPCServer.echo>", ["msg", "reply_fun"], echoRun⟩)
     rfl rfl rfl,
   validation_order_first_failure_wins.2.2.2 RPCServerAttrs "R" (some "C") 24
     [("method", .str "echo"), ("args", .str "nothing")] "echo"
     ⟨"<bound method RPCServer.echo>", ["msg", "reply_fun"], echoRun⟩
     (.str "nothing") "msg" rfl rfl rfl (by decide) rfl⟩

/-- C1 counterexample: the request to `echo` with the extra args key `extra`
does not succeed identically to the one without it: the extra-key request
raises a `TypeError` with an empty trace (no publish, no acknowledgement, no
handler entry), while the request without the extra key succeeds with one
publish and one acknowledgement. -/
theorem echo_extra_key_counterexample :
    serve RPCServerAttrs ⟨some "R", some "C"⟩ 1
      (some (.obj [("method", .str "echo"),
        ("args", .obj [("msg", .str "hi"), ("extra", .str "ignored")])])) =
      ([], some .typeError) ∧
    serve RPCServerAttrs ⟨some "R", some "C"⟩ 1
      (some (.obj [("method", .str "echo"), ("args", .obj [("msg", .str "hi")])])) =
      ([.invoke "echo", .publish "" "R" (some "C") (.str "hi"), .ack 1], none) :=
  ⟨rfl, rfl⟩

/-- C1 (amended): extra keys in `args` pass every validation check without
an error reply, but they are not dropped: `serve` passes the whole args
mapping to the handler as keyword arguments, so when the resolved handler
declares no parameter for some present key the call raises `TypeError` -
`serve` performs no publish and no acknowledgement and never enters the
handler body - instead of succeeding identically to the same request without
the extra key. -/
theorem extra_args_raise_type_error (attrs : List (String × PyAttr)) (rk : String)
    (corr : Option String) (tag : Nat) (fields : Obj) (name : String)
    (c : PyCallable) (argFields : Obj) (k : String) (v : Json)
    (h1 : fields.lookup "method" = some (.str name))
    (h2 : lookupAttr attrs name = some (.callable c))
    (h3 : fields.lookup "args" = some (.obj argFields))
    (h4 : "reply_fun" ∈ c.params)
    (h5 : firstMissingArg c.params (.obj argFields) = .ok none)
    (h6 : (k, v) ∈ argFields)
    (h7 : k ∉ c.params) :
    serve attrs ⟨some rk, corr⟩ tag (some (.obj fields)) = ([], some .typeError) := by
  rw [serve_obj_reaches_call attrs rk corr tag fields name c (.obj argFields) h1 h2 h3 h4 h5]
  have hbad : argFields.any (fun kv => !(c.params.contains kv.1)) = true := by
    refine List.any_eq_true.mpr ⟨(k, v), h6, ?_⟩
    simp [h7]
  simp only [invokeCallable]
  rw [if_pos (show (argFields.any (fun kv => !(c.params.contains kv.1))
      || argFields.any (fun kv => kv.1 == "reply_fun")
      || c.params.any (fun p => p != "reply_fun" && !(argFields.lookup p).isSome)) = true by
    rw [hbad]; rfl)]

/-- Witness for `extra_args_raise_type_error` at the concrete extra-key echo
request. -/
theorem extra_args_raise_type_error_witness :
    serve RPCServerAttrs ⟨some "R2", some "C2"⟩ 9
      (some (.obj [("method", .str "echo"),
        ("args", .obj [("msg", .str "hi"), ("extra", .str "ignored")])])) =
      ([], some .typeError) :=
  extra_args_raise_type_error RPCServerAttrs "R2" (some "C2") 9
    [("method", .str "echo"), ("args", .obj [("msg", .str "hi"), ("extra", .str "ignored")])]
    "echo" ⟨"<bound method RPCServer.echo>", ["msg", "reply_fun"], echoRun⟩
    [("msg", .str "hi"), ("extra", .str "ignored")] "extra" (.str "ignored")
    rfl rfl rfl (by decide) rfl
    (List.mem_cons_of_mem _ (List.mem_cons_self _ _)) (by decide)

/-- Witness for `reply_publishes_then_acks`: on a concrete echo request the
publish sits at index 1 of the trace and the theorem places the matching
acknowledgement at index 2. -/
theorem reply_publishes_then_acks_witness :
    (serve RPCServerAttrs ⟨some "R", some "C"⟩ 5
      (some (.obj [("method", .str "echo"), ("args", .obj [("msg", .str "hi")])]))).1[2]? =
      some (.ack 5) :=
  reply_publishes_then_acks.2 RPCServerAttrs ⟨some "R", some "C"⟩ 5
    (some (.obj [("method", .str "echo"), ("args", .obj [("msg", .str "hi")])]))
    1 "" "R" (some "C") (.str "hi") rfl

theorem countAck_cons_invoke (n : String) (L : List Event) :
    countAck (.invoke n :: L) = countAck L := by
  simp [countAck, isAckE]

theorem countPub_cons_invoke (n : String) (L : List Event) :
    countPub (.invoke n :: L) = countPub L := by
  simp [countPub, isPubE]

/-- C2 counterexample: an envelope whose payload is undecodable is never
acknowledged: `decode_json` raises before any acknowledgement, so `serve`
propagates the error having produced zero events - not exactly one
acknowledgement as the claim requires for that outcome. -/
theorem undecodable_payload_not_acked :
    serve RPCServerAttrs ⟨some "R", some "C"⟩ 1 none = ([], some .decodeError) ∧
    countAck (serve RPCServerAttrs ⟨some "R", some "C"⟩ 1 none).1 = 0 :=
  ⟨rfl, rfl⟩

/-- C2 (amended): for the concrete server, an envelope is acknowledged
exactly once precisely when `serve` completes without raising: the
no-reply-address path, every validation-error reply and a successful echo
invocation acknowledge exactly once, while an envelope whose payload fails
to decode - or any other raising path, such as a keyword-binding error -
is never acknowledged. -/
theorem ack_exactly_once_iff_no_raise (props : Props) (tag : Nat) (decoded : Option Json) :
    (serve RPCServerAttrs props tag decoded).2 = none ↔
      countAck (serve RPCServerAttrs props tag decoded).1 = 1 := by
  rcases serve_shape RPCServerAttrs props tag decoded with
    ⟨h1, e, h2⟩ | ⟨h1, h2, _⟩ | ⟨rk, msg, _, h1, h2⟩ |
    ⟨rk, body, name, c, fields, _, _, _, hl, hg1, hg2, hg3, h1, h2⟩
  · rw [h1, h2]
    simp [countAck]
  · rw [h1, h2]
    simp [countAck, isAckE]
  · rw [h1, h2]
    simp [countAck, replyEvents, isAckE]
  · rcases RPCServerAttrs_cases name (.callable c) hl with
      ⟨hn, hc⟩ | ⟨hn, hc⟩ | ⟨hn, hc⟩ | ⟨hn, hc⟩ | ⟨hn, hc⟩ | ⟨hn, hc⟩
    · injection hc with hc
      subst hc
      rw [h1, h2]
      simp [countAck, isAckE]
    · injection hc with hc
      subst hc
      rw [h1, h2]
      simp [countAck, isAckE]
    · injection hc with hc
      subst hc
      rw [h1, h2]
      simp [countAck, isAckE]
    · injection hc with hc
      subst hc
      rw [h1, h2]
      simp [countAck, isAckE]
    · injection hc with hc
      subst hc
      simp only at hg3
      have hmsg : (List.lookup "msg" fields).isSome = true := by
        by_contra hx
        rw [Bool.not_eq_true] at hx
        simp [List.any, hx] at hg3
      obtain ⟨m, hm⟩ := Option.isSome_iff_exists.mp hmsg
      rw [h1, h2]
      simp [echoRun, hm, countAck_cons_invoke, countAck_flatten_reply, countAck, isAckE,
        replyEvents]
    · exact absurd hc (by simp)

/-- Witness for `ack_exactly_once_iff_no_raise` (the iff has no hypothesis;
this instantiates it at a successful echo request, where no error is raised
and the acknowledgement count is one). -/
theorem ack_exactly_once_iff_no_raise_witness :
    countAck (serve RPCServerAttrs ⟨some "R", some "C"⟩ 13
      (some (.obj [("method", .str "echo"), ("args", .obj [("msg", .str "hi")])]))).1 = 1 :=
  (ack_exactly_once_iff_no_raise ⟨some "R", some "C"⟩ 13
    (some (.obj [("method", .str "echo"), ("args", .obj [("msg", .str "hi")])]))).mp rfl

/-- C8 counterexample: (i) an envelope with no reply address whose payload is
undecodable is not acknowledged at all - decoding runs before the
reply-address check and raises - contradicting the claimed unconditional
single acknowledgement; (ii) the no-reply-address path is not the only path
that never calls a handler: a decodable request lacking `method` (with a
reply address present) completes normally with no handler invocation in its
trace. -/
theorem no_reply_claim_counterexample :
    serve RPCServerAttrs ⟨none, none⟩ 1 none = ([], some .decodeError) ∧
    countAck (serve RPCServerAttrs ⟨none, none⟩ 1 none).1 = 0 ∧
    (serve RPCServerAttrs ⟨some "R", some "C"⟩ 2 (some (.obj [("args", .obj [])]))).2 = none ∧
    countInv (serve RPCServerAttrs ⟨some "R", some "C"⟩ 2
      (some (.obj [("args", .obj [])]))).1 = 0 :=
  ⟨rfl, rfl, rfl, rfl⟩

/-- C8 (amended): for every envelope whose payload decodes and whose reply
address is absent, the dispatcher acknowledges exactly once, publishes
nothing and calls no handler (the trace is the bare acknowledgement); and
this is the only path that acknowledges the delivery while publishing
nothing: any `serve` trace containing an acknowledgement but no publish
comes from an envelope with no reply address. An envelope with an
undecodable payload is not acknowledged even when its reply address is
absent (third part). -/
theorem no_reply_address_ack_only :
    (∀ (attrs : List (String × PyAttr)) (corr : Option String) (tag : Nat) (body : Json),
      serve attrs ⟨none, corr⟩ tag (some body) = ([.ack tag], none)) ∧
    (∀ (attrs : List (String × PyAttr)) (props : Props) (tag : Nat) (decoded : Option Json),
      1 ≤ countAck (serve attrs props tag decoded).1 →
      countPub (serve attrs props tag decoded).1 = 0 →
      props.reply_to = none) ∧
    (∀ (attrs : List (String × PyAttr)) (corr : Option String) (tag : Nat),
      serve attrs ⟨none, corr⟩ tag none = ([], some .decodeError)) := by
  refine ⟨?_, ?_, ?_⟩
  · intro attrs corr tag body
    simp [serve]
  · intro attrs props tag decoded hack hpub
    rcases serve_shape attrs props tag decoded with
      ⟨h1, _⟩ | ⟨h1, _, h3⟩ | ⟨rk, msg, hrt, h1, _⟩ |
      ⟨rk, body, name, c, fields, hrt, _, _, _, _, _, _, h1, _⟩
    · rw [h1] at hack
      simp [countAck] at hack
    · exact h3
    · rw [h1] at hpub
      simp [countPub, replyEvents, isPubE] at hpub
    · rw [h1] at hack hpub
      rw [countAck_cons_invoke, countAck_flatten_reply] at hack
      rw [countPub_cons_invoke, countPub_flatten_reply] at hpub
      omega
  · intro attrs corr tag
    simp [serve]

/-- Witness for `no_reply_address_ack_only` at a concrete envelope with no
reply address: part one gives the bare-acknowledgement trace, and part two,
applied to the same envelope (whose trace has one acknowledgement and no
publish), recovers that its reply address is absent. -/
theorem no_reply_address_ack_only_witness :
    serve RPCServerAttrs ⟨none, some "C"⟩ 11 (some (.obj [("method", .str "echo")])) =
      ([.ack 11], none) ∧
    (Props.mk none (some "C")).reply_to = none :=
  ⟨no_reply_address_ack_only.1 RPCServerAttrs (some "C") 11 (.obj [("method", .str "echo")]),
   no_reply_address_ack_only.2.1 RPCServerAttrs ⟨none, some "C"⟩ 11
     (some (.obj [("method", .str "echo")])) (by decide) (by decide)⟩

/-- C10: method resolution is reflection over the instance attributes, not a
registered-handler table: for a request whose `method` value is the string
`name` (with a reply address present), the unknown-method error reply is
produced exactly when `name` is not an attribute of the instance (first
part, an iff over the concrete attribute table). The infrastructure names
`serve`, `setup` and `start_serving` are attributes, so dispatching to them
passes method resolution and proceeds to the later validation steps, failing
only the `reply_fun`-declaration check (parts two to four); the non-callable
attribute `_l` also resolves and proceeds to the args-presence check (part
five). -/
theorem method_resolution_by_attribute :
    (∀ (rk : String) (corr : Option String) (tag : Nat) (fields : Obj) (name : String),
      fields.lookup "method" = some (.str name) →
      (serve RPCServerAttrs ⟨some rk, corr⟩ tag (some (.obj fields)) =
        ([.publish "" rk corr (errObj ("Method specified does not exist: " ++ name ++ ".")),
          .ack tag], none) ↔
        lookupAttr RPCServerAttrs name = none)) ∧
    (serve RPCServerAttrs ⟨some "R", some "C"⟩ 31
      (some (.obj [("method", .str "serve"), ("args", .obj [])])) =
      ([.publish "" "R" (some "C")
          (errObj ("Method " ++ "<bound method RPCServer.serve>" ++
            " must declare a parameter \x27reply_fun\x27 that must be invoked to reply to an invokation.")),
        .ack 31], none)) ∧
    (serve RPCServerAttrs ⟨some "R", some "C"⟩ 32
      (some (.obj [("method", .str "setup"), ("args", .obj [])])) =
      ([.publish "" "R" (some "C")
          (errObj ("Method " ++ "<bound method RPCServer.setup>" ++
            " must declare a parameter \x27reply_fun\x27 that must be invoked to reply to an invokation.")),
        .ack 32], none)) ∧
    (serve RPCServerAttrs ⟨some "R", some "C"⟩ 33
      (some (.obj [("method", .str "start_serving"), ("args", .obj [])])) =
      ([.publish "" "R" (some "C")
          (errObj ("Method " ++ "<bound method RPCServer.start_serving>" ++
            " must declare a parameter \x27reply_fun\x27 that must be invoked to reply to an invokation.")),
        .ack 33], none)) ∧
    (serve RPCServerAttrs ⟨some "R", some "C"⟩ 34
      (some (.obj [("method", .str "_l")])) =
      ([.publish "" "R" (some "C")
          (errObj "Message received does not have arguments in attribute args."), .ack 34],
        none)) := by
  refine ⟨?_, rfl, rfl, rfl, rfl⟩
  intro rk corr tag fields name hm
  constructor
  · intro hEq
    cases hl : lookupAttr RPCServerAttrs name with
    | none => rfl
    | some attr =>
      exfalso
      rcases RPCServerAttrs_cases name attr hl with
        ⟨hn, hc⟩ | ⟨hn, hc⟩ | ⟨hn, hc⟩ | ⟨hn, hc⟩ | ⟨hn, hc⟩ | ⟨hn, hc⟩ <;>
        subst hn <;> subst hc
      · cases ha : fields.lookup "args" with
        | none =>
          rw [serve_obj_missing_args RPCServerAttrs rk corr tag fields "__init__" _
            hm hl ha] at hEq
          simp [replyEvents, errObj] at hEq
        | some args =>
          rw [serve_obj_missing_replyfun RPCServerAttrs rk corr tag fields "__init__" _ args
            hm hl ha (by decide)] at hEq
          simp [replyEvents, errObj] at hEq
      · cases ha : fields.lookup "args" with
        | none =>
          rw [serve_obj_missing_args RPCServerAttrs rk corr tag fields "setup" _ hm hl ha] at hEq
          simp [replyEvents, errObj] at hEq
        | some args =>
          rw [serve_obj_missing_replyfun RPCServerAttrs rk corr tag fields "setup" _ args
            hm hl ha (by decide)] at hEq
          simp [replyEvents, errObj] at hEq
      · cases ha : fields.lookup "args" with
        | none =>
          rw [serve_obj_missing_args RPCServerAttrs rk corr tag fields "start_serving" _
            hm hl ha] at hEq
          simp [replyEvents, errObj] at hEq
        | some args =>
          rw [serve_obj_missing_replyfun RPCServerAttrs rk corr tag fields "start_serving" _ args
            hm hl ha (by decide)] at hEq
          simp [replyEvents, errObj] at hEq
      · cases ha : fields.lookup "args" with
        | none =>
          rw [serve_obj_missing_args RPCServerAttrs rk corr tag fields "serve" _ hm hl ha] at hEq
          simp [replyEvents, errObj] at hEq
        | some args =>
          rw [serve_obj_missing_replyfun RPCServerAttrs rk corr tag fields "serve" _ args
            hm hl ha (by decide)] at hEq
          simp [replyEvents, errObj] at hEq
      · cases ha : fields.lookup "args" with
        | none =>
          rw [serve_obj_missing_args RPCServerAttrs rk corr tag fields "echo" _ hm hl ha] at hEq
          simp [replyEvents, errObj] at hEq
        | some args =>
          cases hca : pyContains args "msg" with
          | error e =>
            have h5 : firstMissingArg ["msg", "reply_fun"] args = .error e := by
              simp [firstMissingArg, hca]
            rw [serve_obj_firstMissing_raises RPCServerAttrs rk corr tag fields "echo" _ args e
              hm hl ha (by decide) h5] at hEq
            simp at hEq
          | ok b =>
            cases b with
            | false =>
              have h5 : firstMissingArg ["msg", "reply_fun"] args = .ok (some "msg") := by
                simp [firstMissingArg, hca]
              rw [serve_obj_missing_param RPCServerAttrs rk corr tag fields "echo" _ args "msg"
                hm hl ha (by decide) h5] at hEq
              simp [replyEvents, errObj] at hEq
            | true =>
              have h5 : firstMissingArg ["msg", "reply_fun"] args = .ok none := by
                simp [firstMissingArg, hca]
              rw [serve_obj_reaches_call RPCServerAttrs rk corr tag fields "echo" _ args
                hm hl ha (by decide) h5] at hEq
              cases args with
              | obj afields =>
                simp only [invokeCallable] at hEq
                split at hEq
                · simp at hEq
                · simp at hEq
              | null => simp [invokeCallable] at hEq
              | bool b2 => simp [invokeCallable] at hEq
              | num n2 => simp [invokeCallable] at hEq
              | str s2 => simp [invokeCallable] at hEq
              | arr l2 => simp [invokeCallable] at hEq
      · cases ha : fields.lookup "args" with
        | none =>
          rw [serve_obj_missing_args RPCServerAttrs rk corr tag fields "_l" _ hm hl ha] at hEq
          simp [replyEvents, errObj] at hEq
        | some args =>
          rw [serve_obj_nonCallable RPCServerAttrs rk corr tag fields "_l" args hm hl ha] at hEq
          simp at hEq
  · intro hl
    exact serve_obj_unknown_method RPCServerAttrs rk corr tag fields name hm hl

/-- Witness for `method_resolution_by_attribute` at a request naming `foo`,
which is not an attribute of the instance: the unknown-method error reply is
produced. -/
theorem method_resolution_by_attribute_witness :
    serve RPCServerAttrs ⟨some "R", some "C"⟩ 12 (some (.obj [("method", .str "foo")])) =
      ([.publish "" "R" (some "C") (errObj ("Method specified does not exist: " ++ "foo" ++ ".")),
        .ack 12], none) :=
  (method_resolution_by_attribute.1 "R" (some "C") 12 [("method", .str "foo")] "foo" rfl).mpr rfl

end RPC
